import Mathlib

/-!
Shallow embedding of the state codec (`mousetracking/algorithm/objects/mouse.py`)
and the transition analyzer (`mousetracking/algorithm/analyzer.py`).

Python dictionaries holding the structured location state are modelled by
`LocationState`: each field is `Option (Option _)` where the outer `none`
means the key is absent and `some none` means the key is present with
value `None`.  For the `underground` key the code always pops with default
`None`, so absent and present-`None` behave identically; for `location`
the two cases take different paths (`pop` without default raises `KeyError`
when the key is absent).

Integer state codes are `Int`; Python `%` on a positive modulus agrees with
Lean `Int.emod`.  Durations and time scales are `ℚ` (the reference uses
floats; all claim-relevant arithmetic is exact).  The `defaultdict(list)`
of transitions is modelled as an association list in insertion order, and
the networkx `MultiDiGraph` as a list of edge tuples (`add_edge` appends a
new parallel edge) plus the duration-annotated node list.
-/

/-- Errors raised by `state_to_int`: `keyError` models Python `KeyError`
(from `state.pop('location')` on a missing key), `invalidState` models the
`RuntimeError` raised when fields remain unconsumed, carrying their names. -/
inductive EncodeError where
  | keyError : String → EncodeError
  | invalidState : List String → EncodeError
  deriving DecidableEq, Repr

/-- The structured location state dictionary restricted to its two
recognized keys.  Outer `none` = key absent, `some none` = key present with
value `None`. -/
structure LocationState where
  underground : Option (Option Bool)
  location : Option (Option String)
  deriving DecidableEq, Repr

/-- The empty dictionary `{}`. -/
def emptyState : LocationState := ⟨none, none⟩

/-- Embeds `state_to_int` (mouse.py lines 32-61).  `underground` is popped
with default `None`; in the `underground == False` branch `location` is
popped without a default (KeyError when absent) and unrecognized values are
put back; in the `underground == True` branch `location` is read with `get`
and only popped when it equals `'burrow'`; a non-empty remaining dictionary
raises the leftover error. -/
def state_to_int (st : LocationState) : Except EncodeError Int :=
  let underground : Option Bool := st.underground.getD none
  if underground = some false then
    match st.location with
    | none => Except.error (EncodeError.keyError "location")
    | some location =>
        if location = some "air" then Except.ok 11
        else if location = some "hill" then Except.ok 12
        else if location = some "valley" then Except.ok 13
        else Except.error (EncodeError.invalidState ["location"])
  else if underground = some true then
    if st.location.getD none = some "burrow" then Except.ok 21
    else
      match st.location with
      | none => Except.ok 20
      | some _ => Except.error (EncodeError.invalidState ["location"])
  else
    match st.location with
    | none => Except.ok 0
    | some _ => Except.error (EncodeError.invalidState ["location"])

/-- Embeds `int_to_state` (mouse.py lines 65-84), faithfully including
`value_loc = value % 10` exactly as written in the source. -/
def int_to_state (value : Int) : LocationState :=
  let value_loc := value % 10
  if 10 ≤ value_loc ∧ value_loc < 20 then
    ⟨some (some false),
      if value_loc = 11 then some (some "air")
      else if value_loc = 12 then some (some "hill")
      else if value_loc = 13 then some (some "valley")
      else none⟩
  else if 20 ≤ value_loc ∧ value_loc < 30 then
    ⟨some (some true),
      if value_loc = 21 then some (some "burrow") else none⟩
  else
    emptyState

/-- Embeds `query_state` (mouse.py lines 87-102) over a list of integer
codes, including the second, unreachable `'underground'` branch exactly as
in the source. -/
def query_state (states : List Int) (query : String) : Except String (List Bool) :=
  if query = "underground" then
    Except.ok (states.map fun s => decide (10 ≤ s ∧ s < 20))
  else if query = "in_air" then
    Except.ok (states.map fun s => decide (s = 11))
  else if query = "on_hill" then
    Except.ok (states.map fun s => decide (s = 12))
  else if query = "in_valley" then
    Except.ok (states.map fun s => decide (s = 13))
  else if query = "underground" then
    Except.ok (states.map fun s => decide (20 ≤ s ∧ s < 30))
  else if query = "in_burrow" then
    Except.ok (states.map fun s => decide (s = 21))
  else
    Except.error ("Unknown query " ++ query)

/-- Modelled from the spec: `mouse.STATES`, the hardcoded mapping from
integer state codes to the 7-category label set, is referenced by
`analyzer.py` (`mouse.STATES.keys()` as the default code filter and
`mouse.STATES[code]` as the node label) but its definition is not among the
provided sources.  Per the spec, the reference hardcodes a 7-category label
set over the valid codes of the state table; the labels match the node
names used by the plotting layer. -/
def mouse_STATES (c : Int) : Option String :=
  if c = 0 then some "unknown"
  else if c = 10 then some "sand"
  else if c = 11 then some "air"
  else if c = 12 then some "hill"
  else if c = 13 then some "valley"
  else if c = 20 then some "dimple"
  else if c = 21 then some "burrow"
  else none

/-- Modelled from the spec: the key set of `mouse.STATES`, used by
`get_mouse_state_transitions` as the default value of its `states`
argument. -/
def STATES_keys : List Int := [0, 10, 11, 12, 13, 20, 21]

/-- The `defaultdict(list)` keyed by `(fromCode, toCode)`, modelled as an
association list in insertion order. -/
abbrev TransMap := List ((Int × Int) × List ℚ)

/-- `transitions[key].append(d)` on a `defaultdict(list)`: extend an
existing entry in place, or append a fresh singleton entry. -/
def addTrans : TransMap → Int × Int → ℚ → TransMap
  | [], key, d => [(key, [d])]
  | (k, ds) :: rest, key, d =>
      if k = key then (k, ds ++ [d]) :: rest else (k, ds) :: addTrans rest key d

/-- Dictionary lookup on the association-list model. -/
def transLookup : TransMap → Int × Int → Option (List ℚ)
  | [], _ => none
  | (k, ds) :: rest, key => if k = key then some ds else transLookup rest key

/-- `np.nonzero(np.diff(states) != 0)[0]` paired with the two adjacent
values: the list of `(k, states[k], states[k+1])` with
`states[k] ≠ states[k+1]`, in increasing index order, starting at index
`k₀`. -/
def change_points_from (k₀ : Nat) : List Int → List (Nat × Int × Int)
  | a :: b :: rest =>
      (if a = b then [] else [(k₀, a, b)]) ++ change_points_from (k₀ + 1) (b :: rest)
  | _ => []

/-- The change points of a state sequence, indexed from 0. -/
def change_points (states : List Int) : List (Nat × Int × Int) :=
  change_points_from 0 states

/-- The scan loop of `get_mouse_state_transitions` (analyzer.py lines
85-94): for each change point, the duration is
`(k - last_trans) * time_scale`; the record is kept only when both codes
are members of `allowed` and the duration strictly exceeds
`len_threshold`; `last_trans` is updated to `k` in every iteration, kept
or not. -/
def transitionsLoop (time_scale len_threshold : ℚ) (allowed : List Int) :
    List (Nat × Int × Int) → Nat → TransMap → TransMap
  | [], _, m => m
  | (k, a, b) :: rest, last_trans, m =>
      let duration : ℚ := ((k : ℚ) - (last_trans : ℚ)) * time_scale
      let m' := if a ∈ allowed ∧ b ∈ allowed ∧ duration > len_threshold
                then addTrans m (a, b) duration else m
      transitionsLoop time_scale len_threshold allowed rest k m'

/-- Embeds `get_mouse_state_transitions` (analyzer.py lines 67-96).  The
`self.data['pass2/mouse_trajectory'].states` lookup is modelled by the
`mouse_trajectory` argument: `none` means the precursor was never computed
(Python `KeyError`, re-raised as `RuntimeError`).  The `states` argument
defaults (`none`) to the keys of `mouse.STATES`. -/
def get_mouse_state_transitions (mouse_trajectory : Option (List Int))
    (time_scale : ℚ) (states : Option (List Int)) (len_threshold : ℚ) :
    Except String TransMap :=
  match mouse_trajectory with
  | none => Except.error
      "The mouse trajectory has to be determined before the transitions can be analyzed."
  | some mouse_state =>
      let allowed := states.getD STATES_keys
      Except.ok (transitionsLoop time_scale len_threshold allowed
        (change_points mouse_state) 0 [])

/-- The transition graph: `edges` lists the `(u, v, rate, count)` tuples in
the order `add_edge` was called on the `MultiDiGraph` (each call appends a
new parallel edge), `nodes` is the `defaultdict(int)` of per-category total
dwell durations in insertion order. -/
structure TransGraph where
  edges : List (String × String × ℚ × Nat)
  nodes : List (String × ℚ)
  deriving DecidableEq, Repr

/-- `nodes[u] += d` on a `defaultdict(int)`. -/
def addNode : List (String × ℚ) → String → ℚ → List (String × ℚ)
  | [], u, d => [(u, d)]
  | (v, s) :: rest, u, d =>
      if v = u then (v, s + d) :: rest else (v, s) :: addNode rest u d

/-- `sum(lengths)`. -/
def listSum (l : List ℚ) : ℚ := l.foldl (· + ·) 0

/-- `np.mean(lengths)` for a non-empty list; the empty list (which never
occurs for entries of the transition `defaultdict`) yields `0/0 = 0` in ℚ
where numpy would yield `nan`. -/
def listMean (l : List ℚ) : ℚ := listSum l / (l.length : ℚ)

/-- The aggregation loop of `get_mouse_transition_graph` (analyzer.py
lines 104-120), parameterized by the code-to-category mapping the source
takes from `mouse.STATES`.  For each transition record it looks up both
labels (`KeyError` if a code is not in the mapping), computes
`rate = 1 / mean(lengths)`, accumulates the node dwell total of the source
category, and appends a new edge `(u, v, rate, len(lengths))` to the
multigraph. -/
def transition_graph_core (STATES : Int → Option String) :
    TransMap → List (String × String × ℚ × Nat) → List (String × ℚ) →
    Except String TransGraph
  | [], edges, nodes => Except.ok ⟨edges, nodes⟩
  | ((a, b), lengths) :: rest, edges, nodes =>
      match STATES a with
      | none => Except.error "KeyError"
      | some u =>
          match STATES b with
          | none => Except.error "KeyError"
          | some v =>
              let rate := 1 / listMean lengths
              transition_graph_core STATES rest
                (edges ++ [(u, v, rate, lengths.length)])
                (addNode nodes u (listSum lengths))

/-- Embeds `get_mouse_transition_graph` (analyzer.py lines 99-122): the
transition records are computed first and then folded into the graph using
the hardcoded `mouse.STATES` mapping. -/
def get_mouse_transition_graph (mouse_trajectory : Option (List Int))
    (time_scale : ℚ) (states : Option (List Int)) (len_threshold : ℚ) :
    Except String TransGraph :=
  match get_mouse_state_transitions mouse_trajectory time_scale states len_threshold with
  | Except.error e => Except.error e
  | Except.ok transitions => transition_graph_core mouse_STATES transitions [] []

/-- Declarative description of which change points the scan loop records:
a change point `(k, a, b)` whose previous change index is `last_trans`
contributes `((a, b), (k - last_trans) * time_scale)` exactly when both
codes are members of `allowed` and the duration strictly exceeds
`len_threshold`. -/
def recorded_list (time_scale len_threshold : ℚ) (allowed : List Int) :
    List (Nat × Int × Int) → Nat → List ((Int × Int) × ℚ)
  | [], _ => []
  | (k, a, b) :: rest, last_trans =>
      let duration : ℚ := ((k : ℚ) - (last_trans : ℚ)) * time_scale
      (if a ∈ allowed ∧ b ∈ allowed ∧ duration > len_threshold
       then [((a, b), duration)] else [])
        ++ recorded_list time_scale len_threshold allowed rest k

/-- A category mapping that, unlike the (injective) reference table, sends
the two distinct codes 10 and 11 to the same category label; used to
exhibit the behaviour of the aggregation loop on colliding category
pairs. -/
def STATES_dup (c : Int) : Option String :=
  if c = 10 then some "overground"
  else if c = 11 then some "overground"
  else if c = 12 then some "hill"
  else none

/-- Helper: the imperative scan loop equals folding the recorded
transitions (in order) into the map with `addTrans`. -/
theorem transitionsLoop_eq_foldl_recorded (ts th : ℚ) (al : List Int) :
    ∀ (cps : List (Nat × Int × Int)) (last_trans : Nat) (m : TransMap),
      transitionsLoop ts th al cps last_trans m
        = (recorded_list ts th al cps last_trans).foldl
            (fun acc e => addTrans acc e.1 e.2) m := by
  intro cps
  induction cps with
  | nil => intro last_trans m; rfl
  | cons hd tl ih =>
      intro last_trans m
      obtain ⟨k, a, b⟩ := hd
      by_cases hc : a ∈ al ∧ b ∈ al ∧ ((k : ℚ) - (last_trans : ℚ)) * ts > th
      · simp [transitionsLoop, recorded_list, hc, ih]
      · simp [transitionsLoop, recorded_list, hc, ih]

/-- C1: the claimed round-trip law fails on the code for every code in the
valid domain: because `int_to_state` computes `value % 10` (always in
`[0, 10)`), both decode branches are unreachable, every integer decodes to
the empty state, and re-encoding yields `0`, not the original code. -/
theorem c1_round_trip_broken_eval :
    state_to_int (int_to_state 10) = Except.ok 0 ∧
    state_to_int (int_to_state 11) = Except.ok 0 ∧
    state_to_int (int_to_state 12) = Except.ok 0 ∧
    state_to_int (int_to_state 13) = Except.ok 0 ∧
    state_to_int (int_to_state 20) = Except.ok 0 ∧
    state_to_int (int_to_state 21) = Except.ok 0 :=
  ⟨rfl, rfl, rfl, rfl, rfl, rfl⟩

/-- C2 (counterexample): on `[10,10,10,11,11,12]` with time scale 1 and
threshold 0 the `(10, 11)` record holds the single duration 2 (the first
change point is at index 2 and `last_trans` starts at 0), not 3 as the
claim states. -/
theorem c2_first_duration_counterexample :
    Except.map (fun m => transLookup m (10, 11))
        (get_mouse_state_transitions (some [10, 10, 10, 11, 11, 12]) 1 none 0)
      = Except.ok (some [(2 : ℚ)])
    ∧ some [(2 : ℚ)] ≠ some [(3 : ℚ)] := by
  constructor
  · norm_num [get_mouse_state_transitions, change_points, change_points_from,
      transitionsLoop, addTrans, transLookup, STATES_keys, Except.map]
  · norm_num

/-- C2 (amended): on `[10,10,10,11,11,12]` with time scale 1 and threshold
0 the extraction returns exactly the records `(10, 11) ↦ [2]` and
`(11, 12) ↦ [2]`. -/
theorem c2_transition_scenario :
    get_mouse_state_transitions (some [10, 10, 10, 11, 11, 12]) 1 none 0
      = Except.ok [(((10 : Int), (11 : Int)), [(2 : ℚ)]),
          (((11 : Int), (12 : Int)), [(2 : ℚ)])] := by
  norm_num [get_mouse_state_transitions, change_points, change_points_from,
    transitionsLoop, addTrans, STATES_keys]

/-- C3: encoding `{underground: False}` with the `location` key absent does
not return 10; the unconditional `state.pop('location')` in the
`underground == False` branch raises `KeyError`. -/
theorem c3_encode_overground_missing_location_eval :
    state_to_int ⟨some (some false), none⟩
      = Except.error (EncodeError.keyError "location") :=
  rfl

/-- C4 (counterexample): two records whose code pairs `(10, 12)` and
`(11, 12)` collapse to the same category pair produce two parallel edges on
the multigraph — each with its own count 1 and its own rate `1/2` resp.
`1/4` — and not the single merged edge with count 2 and rate `1/3` the
claim demands. -/
theorem c4_no_merge_counterexample :
    transition_graph_core STATES_dup
        [(((10 : Int), (12 : Int)), [(2 : ℚ)]), (((11 : Int), (12 : Int)), [(4 : ℚ)])] [] []
      = Except.ok ⟨[("overground", "hill", (1 : ℚ)/2, 1),
            ("overground", "hill", (1 : ℚ)/4, 1)],
          [("overground", 6)]⟩
    ∧ ([("overground", "hill", (1 : ℚ)/2, 1), ("overground", "hill", (1 : ℚ)/4, 1)]
          : List (String × String × ℚ × Nat))
        ≠ [("overground", "hill", (1 : ℚ)/3, 2)] := by
  constructor
  · norm_num [transition_graph_core, STATES_dup, listMean, listSum, addNode]
  · norm_num

/-- C4 (amended): the aggregation never merges records — whenever every
code of the record map has a category label, each `(fromCode, toCode)`
record contributes its own edge, in record order, carrying that record's
own count and its own rate `1 / mean(durations)`, while node dwell totals
accumulate per source category. -/
theorem c4_edge_per_record :
    ∀ (f : Int → Option String) (tm : TransMap)
      (es : List (String × String × ℚ × Nat)) (ns : List (String × ℚ)),
      (∀ e ∈ tm, (f e.1.1).isSome ∧ (f e.1.2).isSome) →
      transition_graph_core f tm es ns
        = Except.ok ⟨es ++ tm.map (fun e =>
              ((f e.1.1).getD "", (f e.1.2).getD "", 1 / listMean e.2, e.2.length)),
            tm.foldl (fun acc e => addNode acc ((f e.1.1).getD "") (listSum e.2)) ns⟩ := by
  intro f tm
  induction tm with
  | nil => intro es ns _; simp [transition_graph_core]
  | cons hd tl ih =>
      intro es ns h
      obtain ⟨⟨a, b⟩, ds⟩ := hd
      obtain ⟨ha, hb⟩ := h _ (List.mem_cons_self _ _)
      obtain ⟨u, hu⟩ := Option.isSome_iff_exists.mp ha
      obtain ⟨v, hv⟩ := Option.isSome_iff_exists.mp hb
      have htl := fun e he => h e (List.mem_cons_of_mem _ he)
      simp [transition_graph_core, hu, hv, ih _ _ htl]

/-- C4 (witness): the per-record edge description evaluated on the
two-record map with colliding category pairs. -/
theorem c4_edge_per_record_witness :
    transition_graph_core STATES_dup
        [(((10 : Int), (12 : Int)), [(2 : ℚ)]), (((11 : Int), (12 : Int)), [(4 : ℚ)])] [] []
      = Except.ok ⟨[("overground", "hill", 1 / listMean [(2 : ℚ)], 1),
            ("overground", "hill", 1 / listMean [(4 : ℚ)], 1)],
          [("overground", listSum [(2 : ℚ)] + listSum [(4 : ℚ)])]⟩ := by
  refine (c4_edge_per_record STATES_dup
      [(((10 : Int), (12 : Int)), [(2 : ℚ)]), (((11 : Int), (12 : Int)), [(4 : ℚ)])]
      [] [] (by decide)).trans ?_
  norm_num [STATES_dup, addNode]

/-- C5 (counterexample): with the `states` argument left at its default,
the change point `5 → 6` of `[5, 5, 6]` has duration `1 > 0` yet is not
recorded, because neither 5 nor 6 is a key of the (spec-modelled)
`mouse.STATES` table that the default restricts to. -/
theorem c5_default_filters_counterexample :
    ((1 : ℚ) - (0 : ℚ)) * 1 > 0
    ∧ get_mouse_state_transitions (some [5, 5, 6]) 1 none 0 = Except.ok []
    ∧ Except.map (fun m => transLookup m ((5 : Int), (6 : Int)))
        (get_mouse_state_transitions (some [5, 5, 6]) 1 none 0)
      = Except.ok none := by
  refine ⟨by norm_num, ?_, ?_⟩
  · norm_num [get_mouse_state_transitions, change_points, change_points_from,
      transitionsLoop, STATES_keys]
  · norm_num [get_mouse_state_transitions, change_points, change_points_from,
      transitionsLoop, transLookup, STATES_keys, Except.map]

/-- C5 (amended): leaving the `states` argument at its default restricts
the record to change points both of whose codes are keys of the
(spec-modelled) `mouse.STATES` table; among those, a change point is
recorded exactly when its duration strictly exceeds the threshold, so with
threshold 0 precisely the zero-duration (and negative-duration) ones are
excluded. -/
theorem c5_default_restricts_to_table_codes :
    ∀ (seq : List Int) (ts th : ℚ),
      get_mouse_state_transitions (some seq) ts none th
        = Except.ok ((recorded_list ts th STATES_keys (change_points seq) 0).foldl
            (fun acc e => addTrans acc e.1 e.2) []) :=
  fun seq ts th =>
    congrArg Except.ok
      (transitionsLoop_eq_foldl_recorded ts th STATES_keys (change_points seq) 0 [])

/-- C6: querying `'underground'` returns the elementwise test
`10 ≤ state < 20`: the first branch of `query_state` matches and
short-circuits, so the duplicate `'underground'` branch for `[20, 30)`
further down is dead code. -/
theorem c6_underground_query :
    ∀ states : List Int,
      query_state states "underground"
        = Except.ok (states.map fun s => decide (10 ≤ s ∧ s < 20)) :=
  fun _ => rfl

/-- C7: decoding is total by construction (`int_to_state` is a total Lean
function), and every integer outside the recognized residue range decodes
to the empty state — negative values, values in `(0, 10)` and values
`≥ 30` included. -/
theorem c7_decode_unrecognized_empty :
    ∀ x : Int, ¬(10 ≤ x % 100 ∧ x % 100 < 30) → int_to_state x = emptyState := by
  intro x _
  have h1 : x % 10 < 10 := Int.emod_lt_of_pos x (by norm_num)
  have h0 : 0 ≤ x % 10 := Int.emod_nonneg x (by norm_num)
  have hc1 : ¬(10 ≤ x % 10 ∧ x % 10 < 20) := by omega
  have hc2 : ¬(20 ≤ x % 10 ∧ x % 10 < 30) := by omega
  simp [int_to_state, hc1, hc2]

/-- C7 (witness): the negative value `-5` is outside the recognized
residues and decodes to the empty state. -/
theorem c7_decode_unrecognized_empty_witness :
    ¬(10 ≤ (-5 : Int) % 100 ∧ (-5 : Int) % 100 < 30)
    ∧ int_to_state (-5) = emptyState :=
  ⟨by decide, c7_decode_unrecognized_empty (-5) (by decide)⟩

/-- C8: any present `location` value that the branch selected by
`underground` does not consume — an unrecognized string under
`underground = False`, anything but `'burrow'` under `underground = True`,
and any value when `underground` is absent or `None` — makes the encoder
fail with the leftover-fields error naming `location`, and no code is
returned. -/
theorem c8_leftover_fields_rejected :
    ∀ (ug : Option (Option Bool)) (loc : Option String),
      (ug.getD none = some false →
        loc ≠ some "air" ∧ loc ≠ some "hill" ∧ loc ≠ some "valley") →
      (ug.getD none = some true → loc ≠ some "burrow") →
      state_to_int ⟨ug, some loc⟩
        = Except.error (EncodeError.invalidState ["location"]) := by
  intro ug loc hf ht
  rcases ug with _ | v
  · simp [state_to_int]
  · rcases v with _ | b
    · simp [state_to_int]
    · cases b
      · obtain ⟨h1, h2, h3⟩ := hf rfl
        simp [state_to_int, h1, h2, h3]
      · have h := ht rfl
        simp [state_to_int, h]

/-- C8 (witness): encoding `{underground: False, location: 'nonexistent'}`
fails with the leftover-fields error. -/
theorem c8_leftover_fields_rejected_witness :
    state_to_int ⟨some (some false), some (some "nonexistent")⟩
      = Except.error (EncodeError.invalidState ["location"]) :=
  c8_leftover_fields_rejected (some (some false)) (some "nonexistent")
    (by decide) (by decide)

/-- C9: a missing precursor (the per-frame state sequence never computed)
raises the dedicated error, while an empty but present sequence returns the
empty record map without raising; the two cases are distinguished for every
time scale, threshold and code filter. -/
theorem c9_empty_vs_missing :
    ∀ (ts th : ℚ) (al : Option (List Int)),
      get_mouse_state_transitions none ts al th
        = Except.error
            "The mouse trajectory has to be determined before the transitions can be analyzed."
      ∧ get_mouse_state_transitions (some []) ts al th = Except.ok [] :=
  fun _ _ _ => ⟨rfl, rfl⟩

/-- C10 (counterexample): on a record whose duration list has arithmetic
mean exactly 0, the aggregation does not surface any error — it returns
`Except.ok` with the edge present, its rate the unchecked quotient
`1 / mean` (which in the reference's floating point evaluates to infinity
rather than an error). -/
theorem c10_zero_mean_no_error :
    listMean [(0 : ℚ)] = 0
    ∧ transition_graph_core mouse_STATES [(((11 : Int), (12 : Int)), [(0 : ℚ)])] [] []
        = Except.ok ⟨[("air", "hill", 1 / listMean [(0 : ℚ)], 1)],
            [("air", listSum [(0 : ℚ)])]⟩ := by
  constructor
  · norm_num [listMean, listSum]
  · rfl

/-- C10 (amended): the rate is computed unconditionally: for every
duration list of mean 0 attached to the record `(11, 12)`, the aggregation
succeeds and emits the edge with rate `1 / mean(durations)`, surfacing no
domain error. -/
theorem c10_rate_computed_unconditionally :
    ∀ ds : List ℚ, listMean ds = 0 →
      transition_graph_core mouse_STATES [(((11 : Int), (12 : Int)), ds)] [] []
        = Except.ok ⟨[("air", "hill", 1 / listMean ds, ds.length)],
            [("air", listSum ds)]⟩ :=
  fun _ _ => rfl

/-- C10 (witness): the unconditional-rate description evaluated on the
duration list `[0]`, whose mean is exactly 0. -/
theorem c10_rate_computed_unconditionally_witness :
    listMean [(0 : ℚ)] = 0
    ∧ transition_graph_core mouse_STATES [(((11 : Int), (12 : Int)), [(0 : ℚ)])] [] []
        = Except.ok ⟨[("air", "hill", 1 / listMean [(0 : ℚ)], 1)],
            [("air", listSum [(0 : ℚ)])]⟩ :=
  ⟨by norm_num [listMean, listSum],
    c10_rate_computed_unconditionally [(0 : ℚ)] (by norm_num [listMean, listSum])⟩
